import Mathlib

/-!
Verification of the raysect task-execution core (src/raysect/core/workflow.py)
and the VTK mesh importer mode dispatch (src/raysect/primitive/mesh/vtk.py),
as a shallow embedding in Lean.

Tasks and results are opaque type parameters.  The user callbacks are modelled
as pure functions: `render : Task -> Result` (the extra args and kwargs of the
Python signature are closed over by the function value) and
`update : State -> Result -> State` (the Python update mutates caller state;
here the state is passed explicitly).  Python exceptions are modelled with
`Except PyError`.
-/

/-- The Python exceptions raised by the embedded code. -/
inductive PyError where
  | notImplementedError (msg : String) : PyError
  | valueError (msg : String) : PyError
  | runtimeError (msg : String) : PyError
  deriving DecidableEq, Repr

/-- `RenderEngine.run` (workflow.py lines 73-86): the abstract base contract
raises `NotImplementedError` unconditionally, for every argument combination. -/
def RenderEngine.run {α β σ : Type} (tasks : List α) (render : α → β)
    (update : σ → β → σ) (s0 : σ) : Except PyError σ :=
  let _ := tasks
  let _ := render
  let _ := update
  let _ := s0
  .error (.notImplementedError "Virtual method must be implemented in sub-class.")

/-- `RenderEngine.worker_count` (workflow.py lines 88-92): raises
`NotImplementedError` unconditionally. -/
def RenderEngine.worker_count : Except PyError Int :=
  .error (.notImplementedError "Virtual method must be implemented in sub-class.")

/-- `SerialEngine.run` (workflow.py lines 108-112): iterate the tasks in
submission order; for each task compute `render task` and immediately fold the
result into the caller state with `update`. -/
def SerialEngine.run {α β σ : Type} (tasks : List α) (render : α → β)
    (update : σ → β → σ) (s0 : σ) : σ :=
  tasks.foldl (fun s task => update s (render task)) s0

/-- `SerialEngine.worker_count` (workflow.py lines 114-115). -/
def SerialEngine.worker_count : Int := 1

/-- Python `int()` applied to a numeric value: truncation toward zero.
Used by the `processes` setter (workflow.py line 159, `value = int(value)`). -/
def pyint (q : ℚ) : ℤ :=
  if 0 ≤ q then ⌊q⌋ else ⌈q⌉

/-- The mutable configuration state of `MulticoreEngine` (workflow.py
lines 145-148): the single field `_processes`. -/
structure MulticoreEngine where
  _processes : ℤ
  deriving DecidableEq, Repr

/-- The `processes` property getter (workflow.py lines 150-152). -/
def MulticoreEngine.processes (st : MulticoreEngine) : ℤ :=
  st._processes

/-- The `processes` property setter (workflow.py lines 154-162).
`cpu_count` is the host logical processor count observed at the time of the
assignment.  `value = none` models Python `None`; `value = some q` models a
numeric argument, coerced with `int()` before validation.  A raised
`ValueError` is modelled by the `.error` branch. -/
def MulticoreEngine.setProcesses (cpu_count : ℤ) (st : MulticoreEngine)
    (value : Option ℚ) : Except PyError MulticoreEngine :=
  let _ := st
  match value with
  | none => .ok ⟨cpu_count⟩
  | some v =>
      let value := pyint v
      if value ≤ 0 then
        .error (.valueError "Number of concurrent worker processes must be greater than zero.")
      else
        .ok ⟨value⟩

/-- The observable effect of an assignment `engine.processes = value` in
Python: on success the stored configuration is replaced, and a raised
`ValueError` propagates leaving the object in its prior state. -/
def MulticoreEngine.trySetProcesses (cpu_count : ℤ) (st : MulticoreEngine)
    (value : Option ℚ) : MulticoreEngine :=
  match st.setProcesses cpu_count value with
  | .ok st2 => st2
  | .error _ => st

/-- `MulticoreEngine.worker_count` (workflow.py lines 190-191). -/
def MulticoreEngine.worker_count (st : MulticoreEngine) : ℤ :=
  st._processes

/-!
The pool backend `MulticoreEngine.run` (workflow.py lines 164-188) spawns a
producer process, `processes` worker processes, and consumes results on the
caller context.  The concurrent system is embedded as a small-step interpreter:
the state holds the two `SimpleQueue` channels and the program counters of all
processes, and a schedule (a list of agents) resolves the interleaving
nondeterminism.  Each agent step is atomic at the granularity of one queue
operation together with the local computation that follows it, which is
faithful because the queues are the only shared state between the processes.

Values travelling on the task channel are `Option α`: `some task` for a task
put by the producer, `none` for the shutdown sentinel `None` put by `run`
(workflow.py line 188).  `run` returns once its consumer loop has performed
`tasks.length` updates, so the interpreter reports the caller-visible outcome
exactly when the final state has `remaining = 0`.
-/

/-- One of the processes participating in a pool run: the producer
(workflow.py lines 193-195), worker number `i` (lines 197-212), or the
consumer loop on the caller context (lines 182-184). -/
inductive Agent where
  | producer : Agent
  | worker (i : ℕ) : Agent
  | consumer : Agent
  deriving DecidableEq, Repr

/-- The joint state of a pool run: the tasks the producer has not yet put,
the two channels, the alive flags of the workers, the number of results the
consumer loop still has to pop, the trace of results already passed to
`update`, the caller state folded so far, and the count of `update`
invocations. -/
structure PoolState (α β σ : Type) where
  pending : List α
  task_queue : List (Option α)
  result_queue : List β
  workers : List Bool
  remaining : ℕ
  consumed : List β
  acc : σ
  updates : ℕ
  deriving Repr

/-- One atomic step of the chosen agent; an agent that is blocked (empty
channel) or finished steps without changing the state.
The producer puts its next task (workflow.py lines 194-195); a live worker
pops a channel value, stopping on the sentinel and otherwise rendering and
putting the result (lines 203-212); the consumer, while its loop is not done,
pops a result and folds it with `update` (lines 182-184). -/
def MulticoreEngine.step {α β σ : Type} (render : α → β) (update : σ → β → σ)
    (st : PoolState α β σ) : Agent → PoolState α β σ
  | .producer =>
      match st.pending with
      | [] => st
      | t :: ts => { st with pending := ts, task_queue := st.task_queue ++ [some t] }
  | .worker i =>
      if st.workers.getD i false then
        match st.task_queue with
        | [] => st
        | none :: q => { st with task_queue := q, workers := st.workers.set i false }
        | some t :: q =>
            { st with
              task_queue := q
              result_queue := st.result_queue ++ [render t] }
      else st
  | .consumer =>
      if st.remaining = 0 then st
      else
        match st.result_queue with
        | [] => st
        | r :: rs =>
            { st with
              result_queue := rs
              remaining := st.remaining - 1
              consumed := st.consumed ++ [r]
              acc := update st.acc r
              updates := st.updates + 1 }

/-- The state in which `MulticoreEngine.run` starts the system: nothing has
been put on either channel, all `processes` workers are alive, and the
consumer loop has `tasks.length` iterations ahead of it. -/
def MulticoreEngine.initState {α β σ : Type} (processes : ℕ) (tasks : List α)
    (s0 : σ) : PoolState α β σ :=
  { pending := tasks
    task_queue := []
    result_queue := []
    workers := List.replicate processes true
    remaining := tasks.length
    consumed := []
    acc := s0
    updates := 0 }

/-- Run the system under a given schedule. -/
def MulticoreEngine.exec {α β σ : Type} (render : α → β) (update : σ → β → σ)
    (sched : List Agent) (st : PoolState α β σ) : PoolState α β σ :=
  sched.foldl (MulticoreEngine.step render update) st

/-- `MulticoreEngine.run` (workflow.py lines 164-188) under schedule `sched`:
if the schedule drives the consumer loop to completion, `run` returns and the
caller observes the folded state (`some`, paired with the number of `update`
invocations); otherwise `run` is still blocked (`none`). -/
def MulticoreEngine.run {α β σ : Type} (processes : ℕ) (tasks : List α)
    (render : α → β) (update : σ → β → σ) (s0 : σ) (sched : List Agent) :
    Option (σ × ℕ) :=
  let final := MulticoreEngine.exec render update sched
    (MulticoreEngine.initState processes tasks s0)
  if final.remaining = 0 then some (final.acc, final.updates) else none

/-- The shutdown sentinel on the task channel: Python `None`
(workflow.py lines 188 and 208). -/
def MulticoreEngine.shutdownSignal {α : Type} : Option α := none

/-- `MulticoreEngine._worker` (workflow.py lines 197-212) viewed against the
sequence of values it will pop from the task channel: it loops, popping one
value at a time; the sentinel breaks the loop, any other value is rendered and
its result put on the result channel.  The function returns the results the
worker puts, in order. -/
def MulticoreEngine.workerLoop {α β : Type} (render : α → β) :
    List (Option α) → List β
  | [] => []
  | none :: _ => []
  | some t :: rest => render t :: MulticoreEngine.workerLoop render rest

/-!
The VTK mesh importer (src/raysect/primitive/mesh/vtk.py).  Only the mode
dispatch of `VTKHandler.my_import_vtk` (lines 49-85) is embedded; the helper
`_load_ascii` reads the file from disk, so its outcome is abstracted as a
parameter `ascii_load : Except PyError AsciiLoad` standing for the result of
`cls._load_ascii(filename, scaling)` — an exception raised by the loader or
the `(vertices, triangles, mesh_name)` triple it returns.  The optional
`name` keyword argument is the `name_kwarg` parameter.
-/

/-- Python `str.lower()` (vtk.py line 67, `mode = mode.lower()`): lower-case
every character of the string. -/
def pyLower (s : String) : String := String.mk (s.data.map Char.toLower)

/-- `VTK_AUTOMATIC` (vtk.py line 38). -/
def VTK_AUTOMATIC : String := "auto"

/-- `VTK_ASCII` (vtk.py line 39). -/
def VTK_ASCII : String := "ascii"

/-- `VTK_BINARY` (vtk.py line 40). -/
def VTK_BINARY : String := "binary"

/-- The data of the `Mesh` built by `my_import_vtk` (vtk.py line 85). -/
structure Mesh where
  vertices : List (ℚ × ℚ × ℚ)
  triangles : List (ℕ × ℕ × ℕ)
  smoothing : Bool
  name : String
  deriving DecidableEq, Repr

/-- The triple returned by `VTKHandler._load_ascii`: vertices, triangles and
the mesh name read from the file header. -/
abbrev AsciiLoad : Type := List (ℚ × ℚ × ℚ) × List (ℕ × ℕ × ℕ) × String

/-- The message of the `ValueError` raised for an unrecognised import mode
(vtk.py lines 79-80): the result of formatting the tuple
`(VTK_ASCII, VTK_BINARY)` into the message template. -/
def vtkInvalidImportModeMsg : String :=
  "Unrecognised import mode, valid values are: ('ascii', 'binary')"

/-- The message of the `NotImplementedError` raised for binary input
(vtk.py lines 71 and 77). -/
def vtkBinaryNotImplementedMsg : String :=
  "The binary .vtk loading routine has not been implemented yet."

/-- Mesh construction from a successful ascii load (vtk.py lines 82-85):
when no `name` keyword is supplied the mesh is named from the file header,
falling back to `"VTKMesh"` when the header name is empty (Python
`mesh_name or "VTKMesh"`). -/
def VTKHandler.meshFromLoad (load : AsciiLoad) (name_kwarg : Option String) :
    Mesh :=
  match load with
  | (vertices, triangles, mesh_name) =>
      { vertices := vertices
        triangles := triangles
        smoothing := false
        name :=
          match name_kwarg with
          | some n => n
          | none => if mesh_name = "" then "VTKMesh" else mesh_name }

/-- `VTKHandler.my_import_vtk` (vtk.py lines 49-85): lower-case the mode and
dispatch.  `ascii` uses the ascii loader; `binary` raises
`NotImplementedError`; `auto` tries the ascii loader and turns a `ValueError`
from it into the binary `NotImplementedError`; anything else raises a
`ValueError` naming the valid modes. -/
def VTKHandler.my_import_vtk (ascii_load : Except PyError AsciiLoad)
    (name_kwarg : Option String) (mode : String) : Except PyError Mesh :=
  let mode := pyLower mode
  if mode = VTK_ASCII then
    match ascii_load with
    | .ok load => .ok (VTKHandler.meshFromLoad load name_kwarg)
    | .error e => .error e
  else if mode = VTK_BINARY then
    .error (.notImplementedError vtkBinaryNotImplementedMsg)
  else if mode = VTK_AUTOMATIC then
    match ascii_load with
    | .ok load => .ok (VTKHandler.meshFromLoad load name_kwarg)
    | .error (.valueError _) => .error (.notImplementedError vtkBinaryNotImplementedMsg)
    | .error e => .error e
  else
    .error (.valueError vtkInvalidImportModeMsg)

/-!
Helper lemmas.
-/

/-- Python `int()` on an integer-valued argument is the identity. -/
lemma pyint_intCast (n : ℤ) : pyint (n : ℚ) = n := by
  unfold pyint
  split
  · exact Int.floor_intCast n
  · exact Int.ceil_intCast n

/-- The serial backend instantiated with an appending `update` records the
results in submission order after any already-recorded prefix. -/
lemma serial_run_append {α β : Type} (render : α → β) (tasks : List α) :
    ∀ l0 : List β, SerialEngine.run tasks render (fun l r => l ++ [r]) l0
      = l0 ++ tasks.map render := by
  induction tasks with
  | nil => intro l0; simp [SerialEngine.run]
  | cons t ts ih =>
      intro l0
      simp only [SerialEngine.run, List.foldl_cons] at ih ⊢
      rw [ih (l0 ++ [render t])]
      simp

/-- A worker that pops the channel values `tasks.map some ++ none :: rest`
renders every task before the sentinel, then stops, ignoring `rest`. -/
lemma workerLoop_map_some {α β : Type} (render : α → β) (tasks : List α) :
    ∀ rest : List (Option α),
      MulticoreEngine.workerLoop render (tasks.map some ++ none :: rest)
        = tasks.map render := by
  induction tasks with
  | nil => intro rest; simp [MulticoreEngine.workerLoop]
  | cons t ts ih => intro rest; simp [MulticoreEngine.workerLoop, ih]

/-- The inductive invariant of a pool run: the update count and the pending
consumer iterations total the task count; the consumed trace has one entry
per update; the caller state is the left fold of the consumed trace; and the
consumed trace, the queued results, the rendered images of the tasks still on
the task channel, and the rendered images of the tasks the producer has not
yet put, together form the multiset of all task renders. -/
def PoolInv {α β σ : Type} (tasks : List α) (render : α → β)
    (update : σ → β → σ) (s0 : σ) (st : PoolState α β σ) : Prop :=
  st.updates + st.remaining = tasks.length ∧
  st.consumed.length = st.updates ∧
  st.acc = st.consumed.foldl update s0 ∧
  ((st.consumed : Multiset β) + (st.result_queue : Multiset β)
      + (((st.task_queue.filterMap id).map render : List β) : Multiset β)
      + ((st.pending.map render : List β) : Multiset β)
    = ((tasks.map render : List β) : Multiset β))

/-- The invariant holds in the initial state of a pool run. -/
lemma poolInv_init {α β σ : Type} (processes : ℕ) (tasks : List α)
    (render : α → β) (update : σ → β → σ) (s0 : σ) :
    PoolInv tasks render update s0
      (MulticoreEngine.initState (β := β) processes tasks s0) := by
  simp [PoolInv, MulticoreEngine.initState]

/-- Every atomic step of every agent preserves the invariant. -/
lemma poolInv_step {α β σ : Type} {tasks : List α} {render : α → β}
    {update : σ → β → σ} {s0 : σ} {st : PoolState α β σ}
    (hinv : PoolInv tasks render update s0 st) (a : Agent) :
    PoolInv tasks render update s0 (MulticoreEngine.step render update st a) := by
  obtain ⟨h1, h2, h3, h4⟩ := hinv
  cases a with
  | producer =>
      simp only [MulticoreEngine.step]
      split
      · exact ⟨h1, h2, h3, h4⟩
      · rename_i t ts hp
        refine ⟨h1, h2, h3, ?_⟩
        rw [hp] at h4
        simp only [List.filterMap_append, List.filterMap_cons, id, List.map_append,
          List.map_cons, List.map_nil, ← Multiset.coe_add, Multiset.coe_singleton,
          ← Multiset.cons_coe, ← Multiset.singleton_add, List.filterMap_nil,
          List.append_nil] at h4 ⊢
        rw [← h4]
        abel
  | worker i =>
      simp only [MulticoreEngine.step]
      split
      · split
        · exact ⟨h1, h2, h3, h4⟩
        · rename_i q heq
          refine ⟨h1, h2, h3, ?_⟩
          rw [heq] at h4
          simp only [List.filterMap_cons, id] at h4 ⊢
          exact h4
        · rename_i t q heq
          refine ⟨h1, h2, h3, ?_⟩
          rw [heq] at h4
          simp only [List.filterMap_cons, id, List.map_cons, List.map_append,
            List.map_nil, ← Multiset.coe_add, Multiset.coe_singleton,
            ← Multiset.cons_coe, ← Multiset.singleton_add, List.append_nil] at h4 ⊢
          rw [← h4]
          abel
      · exact ⟨h1, h2, h3, h4⟩
  | consumer =>
      simp only [MulticoreEngine.step]
      split
      · exact ⟨h1, h2, h3, h4⟩
      · rename_i hne
        split
        · exact ⟨h1, h2, h3, h4⟩
        · rename_i r rs heq
          rw [heq] at h4
          refine ⟨?_, ?_, ?_, ?_⟩
          · show st.updates + 1 + (st.remaining - 1) = tasks.length
            omega
          · show (st.consumed ++ [r]).length = st.updates + 1
            simp [h2]
          · show update st.acc r = (st.consumed ++ [r]).foldl update s0
            simp [List.foldl_append, h3]
          · simp only [← Multiset.coe_add, Multiset.coe_singleton,
              ← Multiset.cons_coe, ← Multiset.singleton_add] at h4 ⊢
            rw [← h4]
            abel

/-- The invariant is preserved by an arbitrary schedule. -/
lemma poolInv_exec {α β σ : Type} {tasks : List α} {render : α → β}
    {update : σ → β → σ} {s0 : σ} (sched : List Agent) :
    ∀ {st : PoolState α β σ}, PoolInv tasks render update s0 st →
      PoolInv tasks render update s0
        (MulticoreEngine.exec render update sched st) := by
  induction sched with
  | nil => intro st hinv; exact hinv
  | cons a rest ih =>
      intro st hinv
      simp only [MulticoreEngine.exec, List.foldl_cons] at *
      exact ih (poolInv_step hinv a)

/-- When the consumer loop has finished, the invariant forces the final
accounting: `tasks.length` updates were performed, the consumed trace has one
entry per task, the result channel has been drained, the consumed trace is a
permutation of all task renders, and the caller state is its left fold. -/
lemma pool_final {α β σ : Type} {tasks : List α} {render : α → β}
    {update : σ → β → σ} {s0 : σ} {st : PoolState α β σ}
    (hinv : PoolInv tasks render update s0 st) (hrem : st.remaining = 0) :
    st.updates = tasks.length ∧
    st.consumed.length = tasks.length ∧
    st.result_queue = [] ∧
    st.consumed.Perm (tasks.map render) ∧
    st.acc = st.consumed.foldl update s0 := by
  obtain ⟨h1, h2, h3, h4⟩ := hinv
  have hcard := congrArg Multiset.card h4
  simp only [Multiset.card_add, Multiset.coe_card, List.length_map] at hcard
  have hrq : st.result_queue = [] := List.length_eq_zero.mp (by omega)
  have htq : st.task_queue.filterMap id = [] := List.length_eq_zero.mp (by omega)
  have hpd : st.pending = [] := List.length_eq_zero.mp (by omega)
  rw [hrq, htq, hpd] at h4
  simp only [List.map_nil, Multiset.coe_nil, add_zero] at h4
  exact ⟨by omega, by omega, hrq, Multiset.coe_eq_coe.mp h4, h3⟩

/-- Unpacking a returned pool run: the schedule drove the consumer loop to
completion and the caller observes the final folded state and update count. -/
lemma pool_run_eq_some {α β σ : Type} {processes : ℕ} {tasks : List α}
    {render : α → β} {update : σ → β → σ} {s0 : σ} {sched : List Agent}
    {acc : σ} {u : ℕ}
    (h : MulticoreEngine.run processes tasks render update s0 sched
      = some (acc, u)) :
    (MulticoreEngine.exec render update sched
        (MulticoreEngine.initState processes tasks s0)).remaining = 0 ∧
    (MulticoreEngine.exec render update sched
        (MulticoreEngine.initState processes tasks s0)).acc = acc ∧
    (MulticoreEngine.exec render update sched
        (MulticoreEngine.initState processes tasks s0)).updates = u := by
  simp only [MulticoreEngine.run] at h
  split at h
  · rename_i hrem
    simp only [Option.some.injEq, Prod.mk.injEq] at h
    exact ⟨hrem, h.1, h.2⟩
  · exact absurd h (by simp)

/-!
Claim theorems.
-/

/-- C1: for every run of the pool backend over `tasks` with any worker count
and any schedule under which `run` returns, the result channel receives
exactly `tasks.length` results and no more (every result ever put on the
channel is either in the consumed trace or still queued, and at return the
trace has `tasks.length` entries while the queue is empty), and `run` invokes
`update` exactly `tasks.length` times before it returns. -/
theorem claim_C1_pool_exact_updates {α β σ : Type} (processes : ℕ)
    (tasks : List α) (render : α → β) (update : σ → β → σ) (s0 : σ)
    (sched : List Agent) (acc : σ) (u : ℕ)
    (h : MulticoreEngine.run processes tasks render update s0 sched
      = some (acc, u)) :
    u = tasks.length ∧
    (MulticoreEngine.exec render update sched
        (MulticoreEngine.initState processes tasks s0)).consumed.length
      = tasks.length ∧
    (MulticoreEngine.exec render update sched
        (MulticoreEngine.initState processes tasks s0)).result_queue = [] := by
  obtain ⟨hrem, -, hupd⟩ := pool_run_eq_some h
  have hinv := poolInv_exec sched
    (poolInv_init processes tasks render update s0)
  obtain ⟨h1, h2, h3, -, -⟩ := pool_final hinv hrem
  exact ⟨hupd ▸ h1, h2, h3⟩

/-- Witness for C1: a two-worker run over three tasks that completes under a
concrete schedule, with exactly three updates. -/
theorem claim_C1_witness :
    (3 : ℕ) = [1, 2, 3].length ∧
    (MulticoreEngine.exec (fun t : ℕ => t * t) (fun s r : ℕ => s + r)
        [.producer, .producer, .producer, .worker 0, .worker 1, .worker 0,
         .consumer, .consumer, .consumer]
        (MulticoreEngine.initState 2 [1, 2, 3] 0)).consumed.length
      = [1, 2, 3].length ∧
    (MulticoreEngine.exec (fun t : ℕ => t * t) (fun s r : ℕ => s + r)
        [.producer, .producer, .producer, .worker 0, .worker 1, .worker 0,
         .consumer, .consumer, .consumer]
        (MulticoreEngine.initState 2 [1, 2, 3] 0)).result_queue = [] :=
  claim_C1_pool_exact_updates 2 [1, 2, 3] (fun t => t * t) (fun s r => s + r) 0
    [.producer, .producer, .producer, .worker 0, .worker 1, .worker 0,
     .consumer, .consumer, .consumer] 14 3 (by decide)

/-- C2: with an order-insensitive `update` (commutative and associative
folding, stated as right-commutativity of the fold), the value a completed
pool run with worker count 1, 2, or `tasks.length` delivers to the caller is
the one the sequential backend computes. -/
theorem claim_C2_pool_matches_serial {α β σ : Type} (tasks : List α)
    (render : α → β) (update : σ → β → σ) (s0 : σ)
    (hcomm : ∀ s a b, update (update s a) b = update (update s b) a)
    (processes : ℕ)
    (_hW : processes = 1 ∨ processes = 2 ∨ processes = tasks.length)
    (sched : List Agent) (acc : σ) (u : ℕ)
    (h : MulticoreEngine.run processes tasks render update s0 sched
      = some (acc, u)) :
    acc = SerialEngine.run tasks render update s0 := by
  obtain ⟨hrem, hacc, -⟩ := pool_run_eq_some h
  have hinv := poolInv_exec sched
    (poolInv_init processes tasks render update s0)
  obtain ⟨-, -, -, hperm, haccf⟩ := pool_final hinv hrem
  haveI : RightCommutative update := ⟨hcomm⟩
  calc acc
      = (MulticoreEngine.exec render update sched
          (MulticoreEngine.initState processes tasks s0)).consumed.foldl
            update s0 := by rw [← hacc, haccf]
    _ = (tasks.map render).foldl update s0 := hperm.foldl_eq s0
    _ = SerialEngine.run tasks render update s0 := by
          rw [SerialEngine.run, List.foldl_map]

/-- Witness for C2: a one-worker pool run over three tasks with an additive
`update` agrees with the sequential backend. -/
theorem claim_C2_witness :
    (14 : ℕ) = SerialEngine.run [1, 2, 3] (fun t => t * t)
      (fun s r : ℕ => s + r) 0 :=
  claim_C2_pool_matches_serial [1, 2, 3] (fun t => t * t)
    (fun s r => s + r) 0 (fun s a b => Nat.add_right_comm s a b) 1
    (Or.inl rfl)
    [.producer, .worker 0, .consumer, .producer, .worker 0, .consumer,
     .producer, .worker 0, .consumer] 14 3 (by decide)

/-- C3: the sequential backend processes tasks in submission order, passing
each render result to `update` before the next task is rendered, so with an
appending `update` the recorded sequence of update arguments is exactly
`tasks.map render`; in particular tasks `[0, 1, 2, 3]` with `render t = t * t`
yield `[0, 1, 4, 9]` in that order. -/
theorem claim_C3_serial_submission_order {α β : Type} (tasks : List α)
    (render : α → β) :
    SerialEngine.run tasks render (fun l r => l ++ [r]) [] = tasks.map render ∧
    SerialEngine.run [0, 1, 2, 3] (fun t => t * t)
      (fun (l : List ℕ) r => l ++ [r]) [] = [0, 1, 4, 9] := by
  constructor
  · simpa using serial_run_append render tasks []
  · rfl

/-- C4: the shutdown signal of the pool backend is `none`, distinct from the
channel encoding `some t` of every legal task `t`, and the worker loop
terminates exactly on popping the sentinel: it renders every task value
popped before the sentinel, putting each result on the result channel, and
stops at the sentinel, leaving everything after it unread. -/
theorem claim_C4_shutdown_sentinel {α β : Type} (render : α → β)
    (tasks : List α) (rest : List (Option α)) :
    (∀ t : α, (MulticoreEngine.shutdownSignal : Option α) ≠ some t) ∧
    MulticoreEngine.workerLoop render
        (tasks.map some ++ MulticoreEngine.shutdownSignal :: rest)
      = tasks.map render ∧
    MulticoreEngine.workerLoop render
        ((MulticoreEngine.shutdownSignal : Option α) :: rest) = [] :=
  ⟨fun _ h => Option.noConfusion h, workerLoop_map_some render tasks rest, rfl⟩

/-- C5: assigning `None` to `processes` resolves it to the host logical
processor count observed at assignment time, assigning any positive integer
stores that integer, and `worker_count` returns the stored configuration in
both cases. -/
theorem claim_C5_processes_config (cpu_count : ℤ) (st : MulticoreEngine)
    (n : ℤ) (h : 0 < n) :
    MulticoreEngine.setProcesses cpu_count st none = .ok ⟨cpu_count⟩ ∧
    MulticoreEngine.worker_count ⟨cpu_count⟩ = cpu_count ∧
    MulticoreEngine.setProcesses cpu_count st (some (n : ℚ)) = .ok ⟨n⟩ ∧
    MulticoreEngine.worker_count ⟨n⟩ = n := by
  refine ⟨rfl, rfl, ?_, rfl⟩
  simp only [MulticoreEngine.setProcesses, pyint_intCast]
  rw [if_neg (by omega)]

/-- Witness for C5 at host count 8 and assignment 5. -/
theorem claim_C5_witness :
    MulticoreEngine.setProcesses 8 ⟨2⟩ none = .ok ⟨8⟩ ∧
    MulticoreEngine.worker_count ⟨8⟩ = 8 ∧
    MulticoreEngine.setProcesses 8 ⟨2⟩ (some ((5 : ℤ) : ℚ)) = .ok ⟨5⟩ ∧
    MulticoreEngine.worker_count ⟨5⟩ = 5 :=
  claim_C5_processes_config 8 ⟨2⟩ 5 (by decide)

/-- C6: assigning zero or a negative integer to `processes` raises the
validation `ValueError` at set-time, and the engine keeps its prior
configuration, so `worker_count` still returns the previous value. -/
theorem claim_C6_nonpositive_rejected (cpu_count : ℤ) (st : MulticoreEngine)
    (n : ℤ) (h : n ≤ 0) :
    MulticoreEngine.setProcesses cpu_count st (some (n : ℚ))
      = .error (.valueError
          "Number of concurrent worker processes must be greater than zero.") ∧
    MulticoreEngine.trySetProcesses cpu_count st (some (n : ℚ)) = st ∧
    MulticoreEngine.worker_count
        (MulticoreEngine.trySetProcesses cpu_count st (some (n : ℚ)))
      = MulticoreEngine.worker_count st := by
  have herr : MulticoreEngine.setProcesses cpu_count st (some (n : ℚ))
      = .error (.valueError
          "Number of concurrent worker processes must be greater than zero.") := by
    simp only [MulticoreEngine.setProcesses, pyint_intCast]
    rw [if_pos h]
  refine ⟨herr, ?_, ?_⟩
  · simp [MulticoreEngine.trySetProcesses, herr]
  · simp [MulticoreEngine.trySetProcesses, herr]

/-- Witness for C6 at the assignment of -3 to an engine configured with 4. -/
theorem claim_C6_witness :
    MulticoreEngine.setProcesses 8 ⟨4⟩ (some ((-3 : ℤ) : ℚ))
      = .error (.valueError
          "Number of concurrent worker processes must be greater than zero.") ∧
    MulticoreEngine.trySetProcesses 8 ⟨4⟩ (some ((-3 : ℤ) : ℚ)) = ⟨4⟩ ∧
    MulticoreEngine.worker_count
        (MulticoreEngine.trySetProcesses 8 ⟨4⟩ (some ((-3 : ℤ) : ℚ)))
      = MulticoreEngine.worker_count ⟨4⟩ :=
  claim_C6_nonpositive_rejected 8 ⟨4⟩ (-3) (by decide)

/-- C7: invoking `run` or `worker_count` on the abstract base contract
`RenderEngine`, for every argument combination, fails immediately with the
`NotImplementedError` rather than silently doing nothing. -/
theorem claim_C7_base_contract_unimplemented {α β σ : Type} (tasks : List α)
    (render : α → β) (update : σ → β → σ) (s0 : σ) :
    RenderEngine.run tasks render update s0
      = .error (.notImplementedError
          "Virtual method must be implemented in sub-class.") ∧
    RenderEngine.worker_count
      = .error (.notImplementedError
          "Virtual method must be implemented in sub-class.") :=
  ⟨rfl, rfl⟩

/-- C9: the `processes` setter coerces with `int()` truncation before
validating: for every numeric value, the assignment succeeds exactly when the
truncation is at least 1, and on success it stores the truncation; assigning
2.9 configures 2 workers, while assigning 0.5 is rejected with the
validation error. -/
theorem claim_C9_setter_truncates (cpu_count : ℤ) (st : MulticoreEngine)
    (v : ℚ) :
    ((∃ st2, MulticoreEngine.setProcesses cpu_count st (some v) = .ok st2)
        ↔ 1 ≤ pyint v) ∧
    (1 ≤ pyint v →
      MulticoreEngine.setProcesses cpu_count st (some v) = .ok ⟨pyint v⟩) ∧
    MulticoreEngine.setProcesses cpu_count st (some (29 / 10 : ℚ))
      = .ok ⟨2⟩ ∧
    MulticoreEngine.setProcesses cpu_count st (some (1 / 2 : ℚ))
      = .error (.valueError
          "Number of concurrent worker processes must be greater than zero.") := by
  have hok : ∀ w : ℚ, 1 ≤ pyint w →
      MulticoreEngine.setProcesses cpu_count st (some w) = .ok ⟨pyint w⟩ := by
    intro w hw
    simp only [MulticoreEngine.setProcesses]
    rw [if_neg (by omega)]
  have herr : ∀ w : ℚ, pyint w ≤ 0 →
      MulticoreEngine.setProcesses cpu_count st (some w)
        = .error (.valueError
            "Number of concurrent worker processes must be greater than zero.") := by
    intro w hw
    simp only [MulticoreEngine.setProcesses]
    rw [if_pos hw]
  have h29 : pyint (29 / 10 : ℚ) = 2 := by norm_num [pyint]
  have h12 : pyint (1 / 2 : ℚ) = 0 := by norm_num [pyint]
  refine ⟨⟨?_, fun hw => ⟨⟨pyint v⟩, hok v hw⟩⟩, hok v, ?_, herr _ (by omega)⟩
  · rintro ⟨st2, hst2⟩
    by_contra hlt
    rw [herr v (by omega)] at hst2
    exact Except.noConfusion hst2
  · rw [hok _ (by omega), h29]

/-- Witness for C9: assigning 2.9 to an engine configured with 3 succeeds
and stores 2. -/
theorem claim_C9_witness :
    MulticoreEngine.setProcesses 8 ⟨3⟩ (some ((29 : ℚ) / 10))
      = .ok ⟨pyint ((29 : ℚ) / 10)⟩ :=
  (claim_C9_setter_truncates 8 ⟨3⟩ (29 / 10)).2.1 (by norm_num [pyint])

/-- C10: for every mode string whose lower-cased form is none of `ascii`,
`binary`, `auto`, the importer raises the `ValueError` naming the valid
modes, with a result independent of the file contents (the file is not
consulted); and for a mode lower-casing to `binary` it raises
`NotImplementedError` and never produces a mesh. -/
theorem claim_C10_import_mode_dispatch (mode : String)
    (load1 load2 : Except PyError AsciiLoad) (nk1 nk2 : Option String) :
    (pyLower mode ≠ VTK_ASCII → pyLower mode ≠ VTK_BINARY →
      pyLower mode ≠ VTK_AUTOMATIC →
      VTKHandler.my_import_vtk load1 nk1 mode
        = .error (.valueError vtkInvalidImportModeMsg) ∧
      VTKHandler.my_import_vtk load1 nk1 mode
        = VTKHandler.my_import_vtk load2 nk2 mode) ∧
    (pyLower mode = VTK_BINARY →
      VTKHandler.my_import_vtk load1 nk1 mode
        = .error (.notImplementedError vtkBinaryNotImplementedMsg) ∧
      ∀ m : Mesh, VTKHandler.my_import_vtk load1 nk1 mode ≠ .ok m) := by
  constructor
  · intro h1 h2 h3
    have hall : ∀ (l : Except PyError AsciiLoad) (nk : Option String),
        VTKHandler.my_import_vtk l nk mode
          = .error (.valueError vtkInvalidImportModeMsg) := by
      intro l nk
      simp only [VTKHandler.my_import_vtk]
      rw [if_neg h1, if_neg h2, if_neg h3]
    exact ⟨hall load1 nk1, (hall load1 nk1).trans (hall load2 nk2).symm⟩
  · intro hb
    have hbin : VTKHandler.my_import_vtk load1 nk1 mode
        = .error (.notImplementedError vtkBinaryNotImplementedMsg) := by
      simp only [VTKHandler.my_import_vtk]
      rw [hb]
      rw [if_neg (by decide), if_pos rfl]
    exact ⟨hbin, fun m hm => by rw [hbin] at hm; exact Except.noConfusion hm⟩

/-- Witness for C10: mode `xml` yields the unrecognised-mode `ValueError`
and mode `BINARY` yields the binary `NotImplementedError`, both on a file
whose load would fail. -/
theorem claim_C10_witness :
    VTKHandler.my_import_vtk (.error (.runtimeError "x")) none "xml"
      = .error (.valueError vtkInvalidImportModeMsg) ∧
    VTKHandler.my_import_vtk (.error (.runtimeError "x")) none "BINARY"
      = .error (.notImplementedError vtkBinaryNotImplementedMsg) :=
  ⟨((claim_C10_import_mode_dispatch "xml" (.error (.runtimeError "x"))
      (.ok ([], [], "")) none none).1 (by decide) (by decide) (by decide)).1,
   ((claim_C10_import_mode_dispatch "BINARY" (.error (.runtimeError "x"))
      (.ok ([], [], "")) none none).2 (by decide)).1⟩
